import Mathlib

/-!
# FHIRspective Trend Aggregation Engine — shallow embedding

Embeds the core of `src/databricks/01_ingest_fhir_assessments.py` (the fact
normalizer `ingest_assessment_data` and the trend aggregator
`update_quality_trends`) and the dimension-average query of
`src/databricks/02_quality_analytics.py`.

Modelling conventions:
* Delta tables are Lean lists of typed rows; appending is list append.
* Python dict lookups: a key that is always accessed directly (`d['k']`)
  becomes a plain field; `completedAt`, which the code probes with both
  `.get('completedAt')` (missing → None) and `.get('completedAt', default)`
  (missing → default, present-but-null → None), is `Option (Option String)`
  (`none` = key absent, `some none` = key present with value null).
* `DOUBLE` score columns are `Rat` (the claims are about exact averages such
  as (80+60)/2 = 70, not float rounding).
* Wall-clock inputs are parameters: `int(time.time())` is `t : Nat`,
  `current_timestamp()` / `CURRENT_TIMESTAMP()` is `nowTs : String`, Python's
  per-process string `hash` is a parameter `pyHash : String → Int`, and the
  aggregator's `CURRENT_DATE()` is the `today : String` argument.
* In the MERGE source query the unqualified `DATE(execution_date)` is read as
  `DATE(r.execution_date)`: that is the expression named in the GROUP BY
  clause, and `assessment_results.execution_date` is already a DATE column
  (written as the date part of a timestamp string), so `DATE(·)` is the
  identity on it.
-/

/-- Ingestion payload: assessment metadata object (§6 input contract; the
fields `ingest_assessment_data` reads directly are plain fields). -/
structure Assessment where
  id : Nat
  userId : Int
  serverId : Nat
  createdAt : String
  completedAt : Option (Option String)
  resources : List String
  sampleSize : Nat
  validator : String
  qualityFramework : String
  status : String
deriving DecidableEq, Repr

/-- The `dimensionScores` dict of one resource-type score block: each key may
be absent (`none`). -/
structure DimensionScores where
  completeness : Option Rat
  conformity : Option Rat
  plausibility : Option Rat
  timeliness : Option Rat
  calculability : Option Rat
deriving DecidableEq, Repr

/-- One element of the payload's `resourceScores` array. -/
structure ResourceScore where
  resourceType : String
  overallScore : Rat
  dimensionScores : DimensionScores
deriving DecidableEq, Repr

/-- One element of the payload's `topIssues` array; optional keys are the
ones the code reads with `.get`. -/
structure TopIssue where
  resourceType : Option String
  resourceId : Option String
  dimension : String
  severity : String
  message : String
  field : Option String
  autoFixed : Option Bool
deriving DecidableEq, Repr

/-- The results payload: `resourceScores` / `topIssues` are `Option` because
the code guards them with `'resourceScores' in results` etc. -/
structure ResultsPayload where
  overallQualityScore : Option Rat
  resourceScores : Option (List ResourceScore)
  topIssues : Option (List TopIssue)
deriving Repr

/-- Row of the `assessments_meta` Delta table. -/
structure AssessmentMetaRow where
  assessment_id : String
  user_id : Int
  server_url : String
  execution_date : String
  resources : List String
  sample_size : Nat
  validator : String
  framework : String
  status : String
  overall_score : Rat
  created_at : String
deriving DecidableEq, Repr

/-- Row of the `assessment_results` Delta table. -/
structure AssessmentResultRow where
  result_id : String
  assessment_id : String
  resource_type : String
  resource_id : String
  quality_score : Rat
  completeness_score : Rat
  conformity_score : Rat
  plausibility_score : Rat
  timeliness_score : Option Rat
  calculability_score : Option Rat
  execution_date : String
  created_at : String
deriving DecidableEq, Repr

/-- Row of the `validation_issues` Delta table. -/
structure ValidationIssueRow where
  issue_id : String
  result_id : String
  assessment_id : String
  resource_type : String
  resource_id : String
  dimension : String
  severity : String
  message : String
  field_path : String
  is_auto_fixed : Bool
  detected_at : String
deriving DecidableEq, Repr

/-- Row of the `quality_trends_daily` Delta table. -/
structure TrendRow where
  date : String
  user_id : Int
  resource_type : String
  avg_quality_score : Rat
  total_resources_evaluated : Nat
  total_issues : Nat
  assessment_count : Nat
  updated_at : String
deriving DecidableEq, Repr

/-- The four Delta tables of the `fhirspective` database. -/
structure Store where
  assessments_meta : List AssessmentMetaRow
  assessment_results : List AssessmentResultRow
  validation_issues : List ValidationIssueRow
  quality_trends_daily : List TrendRow
deriving DecidableEq, Repr

/-- The one Python exception our embedding reaches: calling `.split` on
`None` (`AttributeError`). -/
inductive PyError where
  | attributeError : PyError
deriving DecidableEq, Repr

/-- `assessment.get('completedAt') or assessment['createdAt']` (line 161):
Python `or` takes the fallback when the left side is `None` (key absent or
present-null) or an empty — falsy — string. -/
def orTruthy (x : Option (Option String)) (dflt : String) : String :=
  match x with
  | some (some s) => if s = "" then dflt else s
  | _ => dflt

/-- `assessment.get('completedAt', assessment['createdAt'])` (line 188): a
key-default lookup — the default applies only when the key is absent; a
present-but-null value comes back as `none`. -/
def getWithDefault (x : Option (Option String)) (dflt : String) : Option String :=
  match x with
  | none => some dflt
  | some v => v

/-- Python's `s.split('T')[0]`: the prefix of `s` before the first `'T'`
(the whole string when no `'T'` occurs). -/
def pySplitHeadT (s : String) : String :=
  ⟨s.data.takeWhile (fun c => !(c == 'T'))⟩

/-- `x.split('T')[0]` where `x` may be `None`: `None.split` raises
`AttributeError`. -/
def splitDateOfNullable (x : Option String) : Except PyError String :=
  match x with
  | none => .error .attributeError
  | some s => .ok (pySplitHeadT s)

/-- The `result_id` f-string of line 178:
`f"{assessment['id']}_{score['resourceType']}_{int(time.time())}"`. -/
def resultIdOf (a : Assessment) (resourceType : String) (t : Nat) : String :=
  toString a.id ++ "_" ++ resourceType ++ "_" ++ toString t

/-- One assessment-results record (lines 177–190). Required dimension scores
fall back to `0` via `.get(key, 0)`; timeliness/calculability use plain
`.get(key)` and stay `Option`. Building the record evaluates the line-188
date split, which can raise. -/
def buildResultRow (t : Nat) (nowTs : String) (a : Assessment) (s : ResourceScore) :
    Except PyError AssessmentResultRow :=
  match splitDateOfNullable (getWithDefault a.completedAt a.createdAt) with
  | .error e => .error e
  | .ok ed => .ok
    { result_id := resultIdOf a s.resourceType t
      assessment_id := toString a.id
      resource_type := s.resourceType
      resource_id := s.resourceType ++ "_batch"
      quality_score := s.overallScore
      completeness_score := s.dimensionScores.completeness.getD 0
      conformity_score := s.dimensionScores.conformity.getD 0
      plausibility_score := s.dimensionScores.plausibility.getD 0
      timeliness_score := s.dimensionScores.timeliness
      calculability_score := s.dimensionScores.calculability
      execution_date := ed
      created_at := nowTs }

/-- Build all result records for the `resourceScores` array, stopping at the
first raised exception (Python's loop aborts there, before any write). -/
def buildResultRows (t : Nat) (nowTs : String) (a : Assessment) :
    List ResourceScore → Except PyError (List AssessmentResultRow)
  | [] => .ok []
  | s :: rest =>
    match buildResultRow t nowTs a s with
    | .error e => .error e
    | .ok r =>
      match buildResultRows t nowTs a rest with
      | .error e => .error e
      | .ok rs => .ok (r :: rs)

/-- One validation-issues record (lines 199–211); `issue_id` mixes the
wall-clock second and Python's process-seeded `hash` of the message. -/
def buildIssueRow (t : Nat) (nowTs : String) (pyHash : String → Int)
    (a : Assessment) (i : TopIssue) : ValidationIssueRow :=
  let rt := i.resourceType.getD "unknown"
  { issue_id := toString a.id ++ "_" ++ rt ++ "_" ++ toString t ++ "_"
      ++ toString (pyHash i.message)
    result_id := toString a.id ++ "_" ++ rt
    assessment_id := toString a.id
    resource_type := rt
    resource_id := i.resourceId.getD "unknown"
    dimension := i.dimension
    severity := i.severity
    message := i.message
    field_path := i.field.getD ""
    is_auto_fixed := i.autoFixed.getD false
    detected_at := nowTs }

/-- The assessments_meta record (lines 157–169). -/
def buildMetaRow (a : Assessment) (results : ResultsPayload) : AssessmentMetaRow :=
  { assessment_id := toString a.id
    user_id := a.userId
    server_url := "server_" ++ toString a.serverId
    execution_date := orTruthy a.completedAt a.createdAt
    resources := a.resources
    sample_size := a.sampleSize
    validator := a.validator
    framework := a.qualityFramework
    status := a.status
    overall_score := results.overallQualityScore.getD 0
    created_at := a.createdAt }

/-- Step 3 of ingestion: append validation-issue records when `topIssues` is
present. -/
def writeIssues (t : Nat) (nowTs : String) (pyHash : String → Int)
    (a : Assessment) (results : ResultsPayload) (st : Store) : Store :=
  match results.topIssues with
  | some issues =>
    { st with validation_issues :=
        st.validation_issues ++ issues.map (buildIssueRow t nowTs pyHash a) }
  | none => st

/-- `ingest_assessment_data(assessment, results)` (lines 152–216): writes the
metadata record, then — if `resourceScores` is present — builds and appends
the result records (an exception while building aborts the function with the
metadata already persisted), then appends issue records. Returns the store
after the writes that happened, plus the raised exception if any. -/
def ingest_assessment_data (t : Nat) (nowTs : String) (pyHash : String → Int)
    (assessment : Assessment) (results : ResultsPayload) (st : Store) :
    Store × Option PyError :=
  let st1 := { st with assessments_meta :=
      st.assessments_meta ++ [buildMetaRow assessment results] }
  match results.resourceScores with
  | none => (writeIssues t nowTs pyHash assessment results st1, none)
  | some scores =>
    match buildResultRows t nowTs assessment scores with
    | .error e => (st1, some e)
    | .ok rows =>
      let st2 := { st1 with assessment_results := st1.assessment_results ++ rows }
      (writeIssues t nowTs pyHash assessment results st2, none)

/-! ## The trend aggregator (`update_quality_trends`, lines 225–264) -/

/-- MERGE match condition: equality on the composite key
(date, user_id, resource_type). -/
def sameKey (s tr : TrendRow) : Bool :=
  s.date == tr.date && s.user_id == tr.user_id && s.resource_type == tr.resource_type

/-- The composite key of a trend row. -/
def keyOf (tr : TrendRow) : String × Int × String :=
  (tr.date, tr.user_id, tr.resource_type)

/-- The inner subquery `SELECT assessment_id, resource_type, COUNT(*) FROM
validation_issues GROUP BY assessment_id, resource_type`, looked up at one
(assessment_id, resource_type) pair; an absent group is the NULL that
`COALESCE(SUM(...), 0)` turns into 0, i.e. count 0. Note: no date filter —
every issue row for the pair is counted, whatever its `detected_at`. -/
def issue_count (st : Store) (aid rt : String) : Nat :=
  (st.validation_issues.filter
    (fun i => i.assessment_id == aid && i.resource_type == rt)).length

/-- `FROM assessment_results r JOIN assessments_meta a ON r.assessment_id =
a.assessment_id WHERE DATE(r.execution_date) = CURRENT_DATE()`. -/
def joinedRows (st : Store) (today : String) :
    List (AssessmentResultRow × AssessmentMetaRow) :=
  (st.assessment_results.filter (fun r => r.execution_date == today)).flatMap
    (fun r => (st.assessments_meta.filter
        (fun a => r.assessment_id == a.assessment_id)).map (fun a => (r, a)))

/-- The distinct `GROUP BY` keys (user_id, resource_type); the date component
is constant (= today) after the WHERE filter. -/
def groupKeys (rows : List (AssessmentResultRow × AssessmentMetaRow)) :
    List (Int × String) :=
  (rows.map (fun p => (p.2.user_id, p.1.resource_type))).dedup

/-- The joined rows belonging to one group key. -/
def groupOf (rows : List (AssessmentResultRow × AssessmentMetaRow))
    (k : Int × String) : List (AssessmentResultRow × AssessmentMetaRow) :=
  rows.filter (fun p => p.2.user_id == k.1 && p.1.resource_type == k.2)

/-- One source row of the MERGE: the SELECT list of the aggregation query for
one group. `AVG` over the non-null quality_score column is sum/count;
`COALESCE(SUM(i.issue_count), 0)` adds the per-pair issue count of every row
of the group, an absent pair counting 0. -/
def mkTrendRow (st : Store) (today nowTs : String)
    (rows : List (AssessmentResultRow × AssessmentMetaRow))
    (k : Int × String) : TrendRow :=
  let g := groupOf rows k
  { date := today
    user_id := k.1
    resource_type := k.2
    avg_quality_score := (g.map (fun p => p.1.quality_score)).sum / (g.length : Rat)
    total_resources_evaluated := g.length
    total_issues := (g.map (fun p => issue_count st p.1.assessment_id p.1.resource_type)).sum
    assessment_count := ((g.map (fun p => p.1.assessment_id)).dedup).length
    updated_at := nowTs }

/-- The full `USING (...) AS source` subquery: one row per group key. -/
def sourceRows (st : Store) (today nowTs : String) : List TrendRow :=
  (groupKeys (joinedRows st today)).map
    (mkTrendRow st today nowTs (joinedRows st today))

/-- `WHEN MATCHED THEN UPDATE SET ...`: overwrite the derived attributes and
the updated-timestamp, keeping the key columns. -/
def overwriteWith (tr s : TrendRow) : TrendRow :=
  { tr with avg_quality_score := s.avg_quality_score
            total_resources_evaluated := s.total_resources_evaluated
            total_issues := s.total_issues
            assessment_count := s.assessment_count
            updated_at := s.updated_at }

/-- `MERGE INTO quality_trends_daily ... WHEN MATCHED THEN UPDATE / WHEN NOT
MATCHED THEN INSERT *`: every target row matched by a source row is updated
in place; source rows matching no target row are inserted. -/
def mergeTrends (target src : List TrendRow) : List TrendRow :=
  target.map (fun tr =>
    match src.find? (fun s => sameKey s tr) with
    | some s => overwriteWith tr s
    | none => tr)
  ++ src.filter (fun s => !(target.any (fun tr => sameKey s tr)))

/-- `update_quality_trends()` (a.k.a. the spec's `runAggregation(d)`): merge
the aggregated source rows for `today` into `quality_trends_daily`. -/
def update_quality_trends (st : Store) (today nowTs : String) : Store :=
  { st with quality_trends_daily :=
      mergeTrends st.quality_trends_daily (sourceRows st today nowTs) }

/-! ## Analytics (`02_quality_analytics.py`, dimension_scores query) -/

/-- Spark `ROUND(x, 2)` (HALF_UP; the scores in play are nonnegative). -/
def round2 (x : Rat) : Rat :=
  (⌊x * 100 + 1/2⌋ : Int) / 100

/-- SQL `AVG` over a nullable column: NULLs are dropped, the divisor is the
count of non-null values; all-NULL (or empty) input gives NULL. -/
def sqlAvgOpt (xs : List (Option Rat)) : Option Rat :=
  let vs := xs.filterMap id
  if vs.length = 0 then none else some (vs.sum / (vs.length : Rat))

/-- `ROUND(AVG(timeliness_score), 2)` of the `dimension_scores` query
(lines 194–205 of 02_quality_analytics.py), for one resource type. -/
def avg_timeliness (st : Store) (rt : String) : Option Rat :=
  (sqlAvgOpt ((st.assessment_results.filter
    (fun r => r.resource_type == rt)).map (fun r => r.timeliness_score))).map round2

/-! ## Concrete fixtures (stores and payloads used by concrete theorems) -/

/-- A store with all four tables empty. -/
def emptyStore : Store := ⟨[], [], [], []⟩

/-- A minimal assessments_meta row with the given id and owner. -/
def metaRowFor (aid : String) (u : Int) : AssessmentMetaRow :=
  ⟨aid, u, "server_1", "2024-01-02T08:00:00", [], 0, "hapi", "kahn", "completed", 0, "2024-01-02T08:00:00"⟩

/-- A minimal assessment_results row with the given id, resource type,
execution date, quality score and timeliness score. -/
def resultRowFor (aid rt d : String) (q : Rat) (tl : Option Rat) : AssessmentResultRow :=
  ⟨aid ++ "_" ++ rt, aid, rt, rt ++ "_batch", q, 0, 0, 0, tl, none, d, "2024-01-02T09:00:00"⟩

/-- A minimal validation_issues row with the given assessment id, resource
type and detection timestamp. -/
def issueRowFor (aid rt det : String) : ValidationIssueRow :=
  ⟨aid ++ "_" ++ rt ++ "_i", aid ++ "_" ++ rt, aid, rt, "unknown", "completeness", "warning", "m", "", false, det⟩

/-- Example assessment payload: created 2024-01-02, `completedAt` key absent. -/
def asmtA : Assessment :=
  { id := 1
    userId := 7
    serverId := 2
    createdAt := "2024-01-02T08:00:00"
    completedAt := none
    resources := ["Patient"]
    sampleSize := 10
    validator := "hapi"
    qualityFramework := "kahn"
    status := "completed" }

/-- The same assessment with `completedAt` present but null. -/
def asmtNullCompleted : Assessment := { asmtA with completedAt := some none }

/-- A dimension-score block whose required `completeness` key is absent. -/
def dsNoCompleteness : DimensionScores :=
  { completeness := none
    conformity := some 80
    plausibility := some 70
    timeliness := none
    calculability := none }

/-- A complete dimension-score block with `timeliness` 40. -/
def dsT40 : DimensionScores :=
  { completeness := some 90
    conformity := some 80
    plausibility := some 70
    timeliness := some 40
    calculability := none }

/-- A score block for Patient whose `completeness` is absent. -/
def scoreNoCompleteness : ResourceScore :=
  { resourceType := "Patient", overallScore := 80, dimensionScores := dsNoCompleteness }

/-- A full score block for Patient with timeliness 40. -/
def scoreT40 : ResourceScore :=
  { resourceType := "Patient", overallScore := 80, dimensionScores := dsT40 }

/-- Results payload whose only score block lacks `completeness`. -/
def resNoCompleteness : ResultsPayload :=
  { overallQualityScore := some 85
    resourceScores := some [scoreNoCompleteness]
    topIssues := none }

/-- Results payload with one full score block and no issues. -/
def resT40 : ResultsPayload :=
  { overallQualityScore := some 85
    resourceScores := some [scoreT40]
    topIssues := none }

/-- The assessment_results row `buildResultRow 0 "ts" asmtA scoreT40`
produces. -/
def wRow1 : AssessmentResultRow :=
  { result_id := "1_Patient_0"
    assessment_id := "1"
    resource_type := "Patient"
    resource_id := "Patient_batch"
    quality_score := 80
    completeness_score := 90
    conformity_score := 80
    plausibility_score := 70
    timeliness_score := some 40
    calculability_score := none
    execution_date := "2024-01-02"
    created_at := "ts" }

/-- Overwrite a trend row's updated-timestamp (CURRENT_TIMESTAMP of a later
run). -/
def setTs (nowTs : String) (tr : TrendRow) : TrendRow := { tr with updated_at := nowTs }

/-- Blank out the updated-timestamp: two trend rows are "identical aside
from the updated-timestamp" iff their `stripTs` images are equal. -/
def stripTs (tr : TrendRow) : TrendRow := { tr with updated_at := "" }

/-- Store for the C3 counterexample: one result fact executed 2024-01-02,
whose assessment has one issue fact detected 2024-01-01. -/
def cexStoreC3 : Store :=
  ⟨[metaRowFor "a3" 3],
   [resultRowFor "a3" "Patient" "2024-01-02" 80 none],
   [issueRowFor "a3" "Patient" "2024-01-01T00:00:00"],
   []⟩

/-- Store for the C7 counterexample: one result fact executed 2024-01-02,
whose assessment has one issue fact detected 2024-01-03 (so zero issues
detected on 2024-01-02). -/
def cexStoreC7 : Store :=
  ⟨[metaRowFor "a7" 9],
   [resultRowFor "a7" "Observation" "2024-01-02" 50 none],
   [issueRowFor "a7" "Observation" "2024-01-03T12:00:00"],
   []⟩

/-- Store for the C7 witness: one result fact and no issue facts at all. -/
def stNoIssues : Store :=
  ⟨[metaRowFor "w7" 7],
   [resultRowFor "w7" "Patient" "2024-01-02" 80 none],
   [], []⟩

/-- A pre-existing trend row for the (2024-01-02, 7, Patient) key. -/
def trendRowOld : TrendRow := ⟨"2024-01-02", 7, "Patient", 50, 1, 0, 1, "old"⟩

/-- Store for the C6 witness: one score fact plus an existing trend row for
the same composite key (the MERGE must overwrite it, not duplicate it). -/
def stC6 : Store :=
  ⟨[metaRowFor "w6" 7],
   [resultRowFor "w6" "Patient" "2024-01-02" 80 none],
   [], [trendRowOld]⟩

/-! ## Claim theorems -/

/-- C2: the claim says a score block missing the required `completeness`
dimension is rejected with `MalformedPayload` and no facts are persisted.
The code instead evaluates `score['dimensionScores'].get('completeness', 0)`:
ingesting a payload whose only score block lacks `completeness` raises no
error and persists the result record with `completeness_score = 0`. -/
theorem ingest_missing_completeness_defaults_zero :
    (ingest_assessment_data 5 "2024-01-02T09:00:00" (fun _ => 0) asmtA resNoCompleteness emptyStore).2 = none ∧
    ((ingest_assessment_data 5 "2024-01-02T09:00:00" (fun _ => 0) asmtA resNoCompleteness emptyStore).1.assessment_results.map
      (fun r => r.completeness_score)) = [0] := by
  constructor
  · decide
  · rfl

/-- C4 (counterexample): normalizing the very same payload at wall-clock
second 0 and at second 1 produces result records with different
`result_id`s, so identifiers are not independent of wall-clock time. -/
theorem replay_ids_differ_cex :
    ((ingest_assessment_data 0 "ts" (fun _ => 0) asmtA resT40 emptyStore).1.assessment_results.map
      (fun r => r.result_id)) ≠
    ((ingest_assessment_data 1 "ts" (fun _ => 0) asmtA resT40 emptyStore).1.assessment_results.map
      (fun r => r.result_id)) := by
  decide

/-- C4 (amended): the `result_id` of a fact record is a deterministic
function of the payload content AND the ingestion wall-clock second — for
every assessment payload and resource type, ingesting at second 0 and at
second 1 yields different identifiers, so replay at a later time duplicates
rather than deduplicates. -/
theorem resultIdOf_depends_on_time (a : Assessment) (rt : String) :
    resultIdOf a rt 0 ≠ resultIdOf a rt 1 := by
  intro h
  have h1 := congrArg String.data h
  simp only [resultIdOf, String.data_append] at h1
  have h2 := List.append_cancel_left h1
  simp [show toString (0:Nat) = "0" from rfl, show toString (1:Nat) = "1" from rfl] at h2

/-- C10: for a payload whose `completedAt` key is present but null and whose
`resourceScores` is non-empty, ingestion writes the metadata record (with
`createdAt` as its execution date, via the falsy-`or` fallback), then fails
with `AttributeError` when the key-default lookup of `completedAt` returns
null and `.split('T')` is attempted on it — leaving the metadata persisted
with none of the assessment's result or issue facts. -/
theorem ingest_null_completedAt_partial_write (t : Nat) (nowTs : String)
    (pyHash : String → Int) (a : Assessment) (res : ResultsPayload) (st : Store)
    (hc : a.completedAt = some none)
    (s : ResourceScore) (rest : List ResourceScore)
    (hs : res.resourceScores = some (s :: rest)) :
    (ingest_assessment_data t nowTs pyHash a res st).2 = some .attributeError ∧
    (ingest_assessment_data t nowTs pyHash a res st).1.assessments_meta
      = st.assessments_meta ++ [buildMetaRow a res] ∧
    (buildMetaRow a res).execution_date = a.createdAt ∧
    (ingest_assessment_data t nowTs pyHash a res st).1.assessment_results = st.assessment_results ∧
    (ingest_assessment_data t nowTs pyHash a res st).1.validation_issues = st.validation_issues := by
  simp [ingest_assessment_data, hs, buildResultRows, buildResultRow, splitDateOfNullable,
    getWithDefault, hc, buildMetaRow, orTruthy]

/-- C10 (witness): the partial-write behaviour at a concrete payload with
`completedAt` present-but-null and one score block. -/
theorem ingest_null_completedAt_partial_write_witness :
    (ingest_assessment_data 0 "ts" (fun _ => 0) asmtNullCompleted resT40 emptyStore).2 = some .attributeError ∧
    (ingest_assessment_data 0 "ts" (fun _ => 0) asmtNullCompleted resT40 emptyStore).1.assessments_meta
      = emptyStore.assessments_meta ++ [buildMetaRow asmtNullCompleted resT40] ∧
    (buildMetaRow asmtNullCompleted resT40).execution_date = asmtNullCompleted.createdAt ∧
    (ingest_assessment_data 0 "ts" (fun _ => 0) asmtNullCompleted resT40 emptyStore).1.assessment_results = emptyStore.assessment_results ∧
    (ingest_assessment_data 0 "ts" (fun _ => 0) asmtNullCompleted resT40 emptyStore).1.validation_issues = emptyStore.validation_issues :=
  ingest_null_completedAt_partial_write 0 "ts" (fun _ => 0) asmtNullCompleted resT40 emptyStore rfl scoreT40 [] rfl

/-- C8: absent optional dimension scores (timeliness, calculability) are
persisted and propagated as absent — the built result record carries exactly
the payload's optional values — and the downstream per-dimension average
(`ROUND(AVG(timeliness_score), 2)`) divides only by the count of non-absent
values: two records for one resource type, timeliness 40 and absent, average
to 40 (divisor 1), not 20 (divisor 2). -/
theorem optional_dimension_absent_propagation :
    (∀ (t : Nat) (nowTs : String) (a : Assessment) (s : ResourceScore) (row : AssessmentResultRow),
        buildResultRow t nowTs a s = .ok row →
        row.timeliness_score = s.dimensionScores.timeliness ∧
        row.calculability_score = s.dimensionScores.calculability) ∧
    (∀ (ms : List AssessmentMetaRow) (is : List ValidationIssueRow) (ts : List TrendRow)
        (r1 r2 : AssessmentResultRow) (rt : String),
        r1.resource_type = rt → r2.resource_type = rt →
        r1.timeliness_score = some 40 → r2.timeliness_score = none →
        avg_timeliness ⟨ms, [r1, r2], is, ts⟩ rt = some 40) := by
  constructor
  · intro t nowTs a s row h
    cases hsplit : splitDateOfNullable (getWithDefault a.completedAt a.createdAt) with
    | error e => simp [buildResultRow, hsplit] at h
    | ok ed =>
      simp [buildResultRow, hsplit] at h
      subst h
      simp
  · intro ms is ts r1 r2 rt h1 h2 ht1 ht2
    simp [avg_timeliness, sqlAvgOpt, h1, h2, ht1, ht2]
    norm_num [round2]

/-- C8 (witness): at the concrete payload `scoreT40` (timeliness 40,
calculability absent) the built record keeps the optional values, and a
concrete pair of records with timeliness 40 and absent averages to 40. -/
theorem optional_dimension_absent_propagation_witness :
    wRow1.timeliness_score = scoreT40.dimensionScores.timeliness ∧
    avg_timeliness ⟨[], [resultRowFor "1" "Patient" "2024-01-02" 80 (some 40),
                        resultRowFor "2" "Patient" "2024-01-02" 60 none], [], []⟩ "Patient"
      = some 40 :=
  ⟨(optional_dimension_absent_propagation.1 0 "ts" asmtA scoreT40 wRow1 rfl).1,
   optional_dimension_absent_propagation.2 [] [] []
     (resultRowFor "1" "Patient" "2024-01-02" 80 (some 40))
     (resultRowFor "2" "Patient" "2024-01-02" 60 none) "Patient" rfl rfl rfl rfl⟩

/-- C5: a fact store holding exactly two assessments on the same date, with
the same owner and resource type, one with quality score 80 and one with 60,
aggregates to a single DailyTrend row for that key with
`avg_quality_score = 70` and `assessment_count = 2`. -/
theorem merge_two_assessments_avg70 (d : String) (u : Int) (aid1 aid2 rt : String)
    (h : aid1 ≠ aid2) (nowTs : String) (is : List ValidationIssueRow) :
    ∃ tr : TrendRow,
      (update_quality_trends
        ⟨[metaRowFor aid1 u, metaRowFor aid2 u],
         [resultRowFor aid1 rt d 80 none, resultRowFor aid2 rt d 60 none],
         is, []⟩ d nowTs).quality_trends_daily = [tr] ∧
      tr.avg_quality_score = 70 ∧ tr.assessment_count = 2 ∧
      tr.date = d ∧ tr.user_id = u ∧ tr.resource_type = rt := by
  have hb : (aid1 == aid2) = false := by simp [h]
  have hb' : (aid2 == aid1) = false := by simp [Ne.symm h]
  have hrows : (update_quality_trends
        ⟨[metaRowFor aid1 u, metaRowFor aid2 u],
         [resultRowFor aid1 rt d 80 none, resultRowFor aid2 rt d 60 none],
         is, []⟩ d nowTs).quality_trends_daily
      = [mkTrendRow
          ⟨[metaRowFor aid1 u, metaRowFor aid2 u],
           [resultRowFor aid1 rt d 80 none, resultRowFor aid2 rt d 60 none],
           is, []⟩ d nowTs
          (joinedRows
            ⟨[metaRowFor aid1 u, metaRowFor aid2 u],
             [resultRowFor aid1 rt d 80 none, resultRowFor aid2 rt d 60 none],
             is, []⟩ d) (u, rt)] := by
    simp [update_quality_trends, mergeTrends, sourceRows, joinedRows, groupKeys,
      metaRowFor, resultRowFor, hb, hb']
  refine ⟨_, hrows, ?_, ?_, rfl, rfl, rfl⟩
  · simp [mkTrendRow, groupOf, joinedRows, metaRowFor, resultRowFor, hb, hb']
    norm_num
  · simp [mkTrendRow, groupOf, joinedRows, metaRowFor, resultRowFor, hb, hb']
    rw [List.dedup_cons_of_not_mem (by simp [h])]
    simp

/-- C5 (witness): the 80/60 merge at concrete assessments "1" and "2",
owner 7, resource type Patient, date 2024-01-02. -/
theorem merge_two_assessments_avg70_witness :
    ∃ tr : TrendRow,
      (update_quality_trends
        ⟨[metaRowFor "1" 7, metaRowFor "2" 7],
         [resultRowFor "1" "Patient" "2024-01-02" 80 none,
          resultRowFor "2" "Patient" "2024-01-02" 60 none],
         [], []⟩ "2024-01-02" "ts").quality_trends_daily = [tr] ∧
      tr.avg_quality_score = 70 ∧ tr.assessment_count = 2 ∧
      tr.date = "2024-01-02" ∧ tr.user_id = 7 ∧ tr.resource_type = "Patient" :=
  merge_two_assessments_avg70 "2024-01-02" 7 "1" "2" "Patient" (by decide) "ts" []

/-! ### Helper lemmas on the merge and the source query -/

theorem overwriteWith_date (tr s : TrendRow) : (overwriteWith tr s).date = tr.date := rfl

theorem sourceRows_date (st : Store) (d n : String) (tr : TrendRow)
    (h : tr ∈ sourceRows st d n) : tr.date = d := by
  rw [sourceRows] at h
  obtain ⟨k, _, rfl⟩ := List.mem_map.mp h
  rfl

theorem issue_count_map_detected (st : Store) (g : ValidationIssueRow → String) (aid rt : String) :
    issue_count { st with validation_issues :=
        st.validation_issues.map (fun i => { i with detected_at := g i }) } aid rt
      = issue_count st aid rt := by
  simp only [issue_count, List.filter_map, List.length_map]
  rfl

theorem mkTrendRow_map_detected (st : Store) (g : ValidationIssueRow → String)
    (d n : String) (rows : List (AssessmentResultRow × AssessmentMetaRow)) (k : Int × String) :
    mkTrendRow { st with validation_issues :=
        st.validation_issues.map (fun i => { i with detected_at := g i }) } d n rows k
      = mkTrendRow st d n rows k := by
  simp [mkTrendRow, issue_count_map_detected]

theorem sourceRows_map_detected (st : Store) (g : ValidationIssueRow → String) (d n : String) :
    sourceRows { st with validation_issues :=
        st.validation_issues.map (fun i => { i with detected_at := g i }) } d n
      = sourceRows st d n := by
  rw [sourceRows, sourceRows]
  exact List.map_congr_left (fun k _ => mkTrendRow_map_detected st g d n _ k)

theorem mergeTrends_map_filter_other_dates (T S : List TrendRow) (d : String)
    (hS : ∀ s ∈ S, s.date = d) :
    (T.map (fun tr =>
      match S.find? (fun s => sameKey s tr) with
      | some s => overwriteWith tr s
      | none => tr)).filter (fun tr => !(tr.date == d))
      = T.filter (fun tr => !(tr.date == d)) := by
  induction T with
  | nil => simp
  | cons tr T ih =>
    simp only [List.map_cons]
    by_cases hd : tr.date = d
    · have h1 : ((match S.find? (fun s => sameKey s tr) with
          | some s => overwriteWith tr s
          | none => tr).date == d) = true := by
        cases hfind : S.find? (fun s => sameKey s tr) <;> simp [hfind, overwriteWith_date, hd]
      rw [List.filter_cons, List.filter_cons]
      simp [h1, hd, ih]
    · have hfind : S.find? (fun s => sameKey s tr) = none := by
        rw [List.find?_eq_none]
        intro s hs hkey
        have hsd := hS s hs
        simp [sameKey, hsd, Ne.symm hd] at hkey
      rw [List.filter_cons, List.filter_cons]
      simp [hfind, hd, ih]

theorem mergeTrends_filter_other_dates (T S : List TrendRow) (d : String)
    (hS : ∀ s ∈ S, s.date = d) :
    (mergeTrends T S).filter (fun tr => !(tr.date == d))
      = T.filter (fun tr => !(tr.date == d)) := by
  rw [mergeTrends, List.filter_append]
  have hins : (S.filter (fun s => !(T.any (fun tr => sameKey s tr)))).filter
      (fun tr => !(tr.date == d)) = [] := by
    rw [List.filter_eq_nil_iff]
    intro s hs
    have hd := hS s (List.mem_of_mem_filter hs)
    simp [hd]
  rw [hins, List.append_nil, mergeTrends_map_filter_other_dates T S d hS]

theorem sameKey_iff (s tr : TrendRow) : sameKey s tr = true ↔ keyOf s = keyOf tr := by
  simp [sameKey, keyOf, Prod.ext_iff, and_assoc]

theorem keyOf_overwriteWith (tr s : TrendRow) : keyOf (overwriteWith tr s) = keyOf tr := rfl

theorem sourceRows_keys_nodup (st : Store) (d n : String) :
    ((sourceRows st d n).map keyOf).Nodup := by
  rw [sourceRows, List.map_map]
  have h1 : (keyOf ∘ mkTrendRow st d n (joinedRows st d))
      = fun k : Int × String => (d, k.1, k.2) := funext fun k => rfl
  rw [h1]
  exact (List.nodup_dedup _).map (fun k1 k2 hk => by
    simpa [Prod.ext_iff] using hk)

theorem exists_merged_row (T S : List TrendRow) (hS : (S.map keyOf).Nodup)
    (s : TrendRow) (hs : s ∈ S) :
    ∃ tr' ∈ mergeTrends T S, keyOf tr' = keyOf s ∧ tr'.total_issues = s.total_issues := by
  by_cases hT : T.any (fun tr => sameKey s tr)
  · obtain ⟨tr, htr, hkey⟩ := List.any_eq_true.mp hT
    have hsome : (S.find? (fun s' => sameKey s' tr)).isSome := by
      rw [List.find?_isSome]
      exact ⟨s, hs, hkey⟩
    obtain ⟨s1, hfind⟩ := Option.isSome_iff_exists.mp hsome
    have hs1 : s1 ∈ S := List.mem_of_find?_eq_some hfind
    have hk1 : sameKey s1 tr = true := by
      have h0 := List.find?_some hfind
      simpa using h0
    have heq : s1 = s := by
      apply List.inj_on_of_nodup_map hS hs1 hs
      rw [(sameKey_iff s1 tr).mp hk1, (sameKey_iff s tr).mp hkey]
    refine ⟨overwriteWith tr s, ?_, ?_, rfl⟩
    · rw [mergeTrends]
      apply List.mem_append_left
      apply List.mem_map.mpr
      exact ⟨tr, htr, by rw [hfind, heq]⟩
    · rw [keyOf_overwriteWith, (sameKey_iff s tr).mp hkey]
  · refine ⟨s, ?_, rfl, rfl⟩
    rw [mergeTrends]
    apply List.mem_append_right
    exact List.mem_filter.mpr ⟨hs, by simp [hT]⟩

/-- C3 (counterexample): aggregating date 2024-01-02 over a store whose only
issue fact was detected on 2024-01-01 still counts that issue — the trend
row's `total_issues` is 1 although no issue's detection date equals the
target date, so the issue count is not restricted to the target date. -/
theorem issue_count_ignores_detection_date_cex :
    ((update_quality_trends cexStoreC3 "2024-01-02" "ts").quality_trends_daily.map
      (fun tr => tr.total_issues)) = [1] ∧
    cexStoreC3.validation_issues.all
      (fun i => !(pySplitHeadT i.detected_at == "2024-01-02")) = true := by
  decide

/-- C3 (amended): the per-(assessment, resource type) issue count reads
ValidationIssue facts of every detection date — the produced trend rows are
invariant under arbitrary rewriting of all detection timestamps — while the
run for date d writes only trend rows for date d, leaving rows of every
other date unchanged. -/
theorem update_quality_trends_detection_date_invariant (st : Store) (d nowTs : String)
    (g : ValidationIssueRow → String) :
    ((update_quality_trends
        { st with validation_issues :=
            st.validation_issues.map (fun i => { i with detected_at := g i }) }
        d nowTs).quality_trends_daily
      = (update_quality_trends st d nowTs).quality_trends_daily) ∧
    ((update_quality_trends st d nowTs).quality_trends_daily.filter
        (fun tr => !(tr.date == d))
      = st.quality_trends_daily.filter (fun tr => !(tr.date == d))) := by
  constructor
  · rw [update_quality_trends, update_quality_trends]
    simp only
    rw [sourceRows_map_detected]
  · rw [update_quality_trends]
    exact mergeTrends_filter_other_dates _ _ d (fun s hs => sourceRows_date st d nowTs s hs)

/-- C7 (counterexample): a (date, owner, resource type) group with a score
fact on 2024-01-02 and no ValidationIssue facts detected on that date gets
`total_issues = 1`, not 0, because its assessment has an issue fact detected
on 2024-01-03 and the issue subquery has no date filter. -/
theorem zero_issue_group_nonzero_cex :
    ((update_quality_trends cexStoreC7 "2024-01-02" "ts").quality_trends_daily.map
      (fun tr => tr.total_issues)) = [1] ∧
    (cexStoreC7.validation_issues.filter
      (fun i => pySplitHeadT i.detected_at == "2024-01-02")).length = 0 := by
  decide

/-- C7 (amended): a group whose resource type has no ValidationIssue facts
at all (any detection date) aggregates to a present DailyTrend row with
`total_issues = 0` — an explicit zero, not an absent value or missing row. -/
theorem no_issue_facts_total_issues_zero (st : Store) (d nowTs : String) (tr : TrendRow)
    (htr : tr ∈ sourceRows st d nowTs)
    (hno : ∀ i ∈ st.validation_issues, i.resource_type ≠ tr.resource_type) :
    tr.total_issues = 0 ∧
    ∃ tr' ∈ (update_quality_trends st d nowTs).quality_trends_daily,
      keyOf tr' = keyOf tr ∧ tr'.total_issues = 0 := by
  have h0 : tr.total_issues = 0 := by
    rw [sourceRows] at htr
    obtain ⟨k, hk, rfl⟩ := List.mem_map.mp htr
    show ((groupOf (joinedRows st d) k).map
      (fun p => issue_count st p.1.assessment_id p.1.resource_type)).sum = 0
    apply List.sum_eq_zero
    intro x hx
    obtain ⟨p, hp, rfl⟩ := List.mem_map.mp hx
    have hprt : p.1.resource_type = k.2 := by
      have h2 := (List.mem_filter.mp hp).2
      simp [groupOf] at h2 ⊢
      exact h2.2
    rw [issue_count]
    rw [List.length_eq_zero, List.filter_eq_nil_iff]
    intro i hi
    have hne := hno i hi
    simp [hprt]
    exact fun _ => hne
  obtain ⟨tr', htr', hkey, htot⟩ :=
    exists_merged_row st.quality_trends_daily (sourceRows st d nowTs)
      (sourceRows_keys_nodup st d nowTs) tr htr
  exact ⟨h0, tr', htr', hkey, htot.trans h0⟩

/-- C7 (witness): the amended property at a concrete store with one score
fact and no issue facts. -/
theorem no_issue_facts_total_issues_zero_witness :
    (mkTrendRow stNoIssues "2024-01-02" "ts" (joinedRows stNoIssues "2024-01-02")
      (7, "Patient")).total_issues = 0 ∧
    ∃ tr' ∈ (update_quality_trends stNoIssues "2024-01-02" "ts").quality_trends_daily,
      keyOf tr' = keyOf (mkTrendRow stNoIssues "2024-01-02" "ts"
        (joinedRows stNoIssues "2024-01-02") (7, "Patient")) ∧
      tr'.total_issues = 0 :=
  no_issue_facts_total_issues_zero stNoIssues "2024-01-02" "ts"
    (mkTrendRow stNoIssues "2024-01-02" "ts" (joinedRows stNoIssues "2024-01-02") (7, "Patient"))
    (List.mem_singleton.mpr rfl)
    (fun i hi => absurd hi (List.not_mem_nil i))

/-! ### Key-uniqueness and idempotence of the MERGE -/

theorem mergeTrends_map_keys (T S : List TrendRow) :
    ((T.map (fun tr => match S.find? (fun s => sameKey s tr) with
      | some s => overwriteWith tr s
      | none => tr)).map keyOf) = T.map keyOf := by
  rw [List.map_map]
  apply List.map_congr_left
  intro tr _
  cases hfind : S.find? (fun s => sameKey s tr) <;>
    simp [Function.comp, hfind, keyOf_overwriteWith]

theorem mergeTrends_keys_nodup (T S : List TrendRow)
    (hT : (T.map keyOf).Nodup) (hS : (S.map keyOf).Nodup) :
    ((mergeTrends T S).map keyOf).Nodup := by
  rw [mergeTrends, List.map_append]
  apply List.Nodup.append
  · rw [mergeTrends_map_keys]
    exact hT
  · exact List.Nodup.sublist (List.Sublist.map keyOf (List.filter_sublist S)) hS
  · rw [mergeTrends_map_keys]
    intro k hk1 hk2
    obtain ⟨tr, htr, rfl⟩ := List.mem_map.mp hk1
    obtain ⟨s, hsf, hks⟩ := List.mem_map.mp hk2
    have hmem := List.mem_filter.mp hsf
    have hnot : (T.any (fun tr' => sameKey s tr')) = false := by
      have h2 := hmem.2
      simpa using h2
    have hsk : sameKey s tr = true := (sameKey_iff s tr).mpr hks
    have := List.any_eq_true.mpr ⟨tr, htr, hsk⟩
    rw [hnot] at this
    exact Bool.false_ne_true this

theorem sameKey_self (s : TrendRow) : sameKey s s = true := by simp [sameKey]

theorem sourceRows_setTs (st : Store) (d n n' : String) :
    sourceRows st d n' = (sourceRows st d n).map (setTs n') := by
  rw [sourceRows, sourceRows, List.map_map]
  rfl

theorem find?_setTs (S : List TrendRow) (n' : String) (tr : TrendRow) :
    (S.map (setTs n')).find? (fun s => sameKey s tr)
      = (S.find? (fun s => sameKey s tr)).map (setTs n') := by
  rw [List.find?_map]
  rfl

theorem mergeTrends_replay (T S : List TrendRow) (n' : String)
    (hS : (S.map keyOf).Nodup) :
    (mergeTrends (mergeTrends T S) (S.map (setTs n'))).map stripTs
      = (mergeTrends T S).map stripTs := by
  -- the second run inserts nothing: every source key is already present
  have hins : (S.map (setTs n')).filter
      (fun s => !((mergeTrends T S).any (fun tr => sameKey s tr))) = [] := by
    rw [List.filter_eq_nil_iff]
    intro s' hs'
    obtain ⟨s, hs, rfl⟩ := List.mem_map.mp hs'
    suffices h : (mergeTrends T S).any (fun tr => sameKey (setTs n' s) tr) = true by
      simp [h]
    apply List.any_eq_true.mpr
    by_cases hT : T.any (fun tr => sameKey s tr)
    · obtain ⟨tr, htr, hk⟩ := List.any_eq_true.mp hT
      refine ⟨(match S.find? (fun s0 => sameKey s0 tr) with
        | some s0 => overwriteWith tr s0
        | none => tr), ?_, ?_⟩
      · rw [mergeTrends]
        exact List.mem_append_left _ (List.mem_map.mpr ⟨tr, htr, rfl⟩)
      · cases hfind : S.find? (fun s0 => sameKey s0 tr) <;> simp only [hfind] <;> exact hk
    · refine ⟨s, ?_, sameKey_self s⟩
      rw [mergeTrends]
      apply List.mem_append_right
      exact List.mem_filter.mpr ⟨hs, by simp [hT]⟩
  rw [show mergeTrends (mergeTrends T S) (S.map (setTs n'))
      = (mergeTrends T S).map (fun tr =>
          match (S.map (setTs n')).find? (fun s => sameKey s tr) with
          | some s => overwriteWith tr s
          | none => tr) ++ (S.map (setTs n')).filter
            (fun s => !((mergeTrends T S).any (fun tr => sameKey s tr))) from rfl]
  rw [hins, List.append_nil]
  rw [mergeTrends, List.map_append, List.map_append, List.map_append]
  congr 1
  · -- rows updated (or left alone) by the first run keep their keys, and the
    -- second run overwrites them with the same values
    simp only [List.map_map]
    apply List.map_congr_left
    intro tr _
    simp only [Function.comp_apply]
    cases hfind : S.find? (fun s => sameKey s tr) with
    | none =>
      have hfind2 : (S.map (setTs n')).find? (fun s0 => sameKey s0 tr) = none := by
        rw [find?_setTs, hfind]
        rfl
      simp only [hfind, hfind2]
    | some s =>
      have hfind2 : (S.map (setTs n')).find? (fun s0 => sameKey s0 (overwriteWith tr s))
          = some (setTs n' s) := by
        have h1 : (S.map (setTs n')).find? (fun s0 => sameKey s0 tr) = some (setTs n' s) := by
          rw [find?_setTs, hfind]
          rfl
        exact h1
      simp only [hfind, hfind2]
      rfl
  · -- rows inserted by the first run are overwritten with their own values
    simp only [List.map_map]
    apply List.map_congr_left
    intro s0 hs0
    have hs0S : s0 ∈ S := List.mem_of_mem_filter hs0
    simp only [Function.comp_apply]
    have hsome : (S.find? (fun s => sameKey s s0)).isSome := by
      rw [List.find?_isSome]
      exact ⟨s0, hs0S, sameKey_self s0⟩
    obtain ⟨s1, hfind⟩ := Option.isSome_iff_exists.mp hsome
    have hs1 : s1 ∈ S := List.mem_of_find?_eq_some hfind
    have hk1 : sameKey s1 s0 = true := by
      have h0 := List.find?_some hfind
      simpa using h0
    have heq : s1 = s0 := by
      apply List.inj_on_of_nodup_map hS hs1 hs0S
      rw [(sameKey_iff s1 s0).mp hk1]
    have hfind2 : (S.map (setTs n')).find? (fun s => sameKey s s0) = some (setTs n' s0) := by
      rw [find?_setTs, hfind, heq]
      rfl
    simp only [hfind2]
    rfl

/-- C6: the MERGE preserves the at-most-one-row-per-composite-key invariant
of the Trend Store — if keys are unique before a run they are unique after —
and the table grows exactly by the source rows whose key was not yet
represented: an already-represented key is overwritten in place, never
duplicated. -/
theorem trend_key_uniqueness_preserved (st : Store) (d nowTs : String)
    (h : (st.quality_trends_daily.map keyOf).Nodup) :
    (((update_quality_trends st d nowTs).quality_trends_daily).map keyOf).Nodup ∧
    (update_quality_trends st d nowTs).quality_trends_daily.length
      = st.quality_trends_daily.length
        + ((sourceRows st d nowTs).filter
            (fun s => !(st.quality_trends_daily.any (fun tr => sameKey s tr)))).length := by
  constructor
  · exact mergeTrends_keys_nodup _ _ h (sourceRows_keys_nodup st d nowTs)
  · rw [update_quality_trends]
    simp [mergeTrends]

/-- C6 (witness): a store whose trend table already holds a row for the
(2024-01-02, 7, Patient) key keeps unique keys, and its length is unchanged
by a run that recomputes that key. -/
theorem trend_key_uniqueness_preserved_witness :
    (((update_quality_trends stC6 "2024-01-02" "ts").quality_trends_daily).map keyOf).Nodup ∧
    (update_quality_trends stC6 "2024-01-02" "ts").quality_trends_daily.length
      = stC6.quality_trends_daily.length
        + ((sourceRows stC6 "2024-01-02" "ts").filter
            (fun s => !(stC6.quality_trends_daily.any (fun tr => sameKey s tr)))).length :=
  trend_key_uniqueness_preserved stC6 "2024-01-02" "ts" (by decide)

/-- C1: running the trend aggregation twice for the same date with no
intervening fact changes leaves every DailyTrend row identical to the single
run's result in every attribute except the updated-timestamp (`stripTs`
blanks exactly that field). -/
theorem update_quality_trends_idempotent (st : Store) (d n1 n2 : String) :
    ((update_quality_trends (update_quality_trends st d n1) d n2).quality_trends_daily).map stripTs
      = ((update_quality_trends st d n1).quality_trends_daily).map stripTs := by
  have hsrc : sourceRows (update_quality_trends st d n1) d n2 = sourceRows st d n2 := rfl
  show (mergeTrends (update_quality_trends st d n1).quality_trends_daily
      (sourceRows (update_quality_trends st d n1) d n2)).map stripTs
    = ((update_quality_trends st d n1).quality_trends_daily).map stripTs
  rw [hsrc, sourceRows_setTs st d n1 n2]
  exact mergeTrends_replay st.quality_trends_daily (sourceRows st d n1) n2
    (sourceRows_keys_nodup st d n1)
